import Mathlib

/-
Verification of `backends/arm/arm_backend.py`: a shallow embedding of the
Arm/TOSA ahead-of-time backend (lowering of graph nodes to TOSA
instructions, and the Vela artifact packaging) together with theorems
checking the natural-language specification against the code.

Python bytes are embedded as `List Nat` (each element a byte value),
Python ints as `Nat`/`Int`, Python floats as `Rat`, and Python
exceptions as an error type `PyErr` in `Except`.
-/

/-! ## Bytes and low-level helpers -/

/-- UTF-8 encoding of one Unicode code point, as byte values. -/
def utf8Bytes (c : Nat) : List Nat :=
  if c < 128 then [c]
  else if c < 2048 then [192 + c / 64, 128 + c % 64]
  else if c < 65536 then [224 + c / 4096, 128 + (c / 64) % 64, 128 + c % 64]
  else [240 + c / 262144, 128 + (c / 4096) % 64, 128 + (c / 64) % 64, 128 + c % 64]

/-- `bytes(s, "utf8")`: UTF-8 bytes of a string. -/
def strBytes (s : String) : List Nat :=
  s.data.flatMap (fun ch => utf8Bytes ch.toNat)

/-- `v.to_bytes(w, "little")`: little-endian encoding of `v` in `w` bytes. -/
def leBytes : Nat → Nat → List Nat
  | 0, _ => []
  | w + 1, v => v % 256 :: leBytes w (v / 256)

/-- A numpy array in the compiler's `.npz` output archive: element byte
width (`itemsize`) and the element values (as machine integers). -/
structure NpzArray where
  width : Nat
  values : List Nat
deriving Repr, DecidableEq

/-- `arr.tobytes()`: the raw little-endian bytes of the array. -/
def NpzArray.tobytes (a : NpzArray) : List Nat :=
  a.values.flatMap (leBytes a.width)

/-- The compiler's output archive: named arrays in file (iteration) order. -/
def NpzData := List (String × NpzArray)

/-- Key lookup in the archive (`data[key]`). -/
def npzLookup : List (String × NpzArray) → String → Option NpzArray
  | [], _ => none
  | (k, a) :: rest, key => if k = key then some a else npzLookup rest key

/-! ## Artifact packaging (`vela_compile`, lines 146-201)

The file I/O and the external `vela` subprocess are outside the model; the
packaging of the resulting archive into the final binary stream is embedded
exactly. -/

/-- Lines 170-171 and 183-184: the 16-byte block-name field — UTF-8 bytes of
the name truncated to 15 bytes, then null padding up to 16 bytes. -/
def blockNameField (key : String) : List Nat :=
  let bn := (strBytes key).take 15
  bn ++ List.replicate (16 - bn.length) 0

/-- Line 176: `block_data + b'\x00'*(16-len(block_data)%16)` — the padded
data field of a block read from the archive. -/
def padBlockData (data : List Nat) : List Nat :=
  data ++ List.replicate (16 - data.length % 16) 0

/-- Lines 170-179: one emitted block — name field, 16-byte little-endian
unpadded length field, padded data. -/
def encBlock (key : String) (data : List Nat) : List Nat :=
  blockNameField key ++ leBytes 16 data.length ++ padBlockData data

/-- Line 187: `block_length + (15 - (block_length - 1) % 16)` with Python's
floor-mod semantics — the scratch size rounded up to a 16-byte multiple. -/
def scratchPaddedLen (v : Nat) : Nat :=
  (((v : Int)) + (15 - ((v : Int) - 1) % 16)).toNat

/-- Lines 183-191: the synthesized `scratch_data` block — name field,
16-byte little-endian length field holding the rounded-up length, and that
many zero bytes. -/
def encScratchBlock (v : Nat) : List Nat :=
  blockNameField "scratch_data" ++ leBytes 16 (scratchPaddedLen v) ++
    List.replicate (scratchPaddedLen v) 0

/-- Line 199: `bytes("vela_bin_stream","utf-8") + b'\x00'`. -/
def velaHeader : List Nat := strBytes "vela_bin_stream" ++ [0]

/-- Line 200: `bytes("vela_end_stream","utf-8") + b'\x00'`. -/
def velaFooter : List Nat := strBytes "vela_end_stream" ++ [0]

/-- Lines 162-201: package the archive as the Vela binary stream — one
block per archive entry in iteration order, then the synthesized scratch
block sized from `data["scratch_shape"][0]`, wrapped in header and footer.
`none` models the `KeyError`/`IndexError` when `scratch_shape` is absent
or empty. -/
def vela_compile_pack (data : List (String × NpzArray)) : Option (List Nat) :=
  let blocks := data.flatMap (fun p => encBlock p.1 p.2.tobytes)
  match npzLookup data "scratch_shape" with
  | none => none
  | some arr =>
    match arr.values with
    | [] => none
    | v :: _ => some (velaHeader ++ blocks ++ encScratchBlock v ++ velaFooter)

/-! ## Graph and operand model

`tosa_mapping.TosaArg` (the Tensor Descriptor Resolver) is imported by the
source but its module is not under `src/`; per spec section 4.1 it resolves a
tensor operand to name/shape/element-type, a literal number to a value, and
an integer-list attribute to a list. We embed the resolved view as one
record; the lowering code reads only the fields that its duck-typed Python
counterpart reads. -/

/-- Resolved operand view (modelled from the spec, section 4.1: tensor
operands give `name`/`shape`/`dtype`, scalar literals give `number`,
integer-list attributes give `special`). -/
structure TosaArg where
  name : String
  shape : List Nat
  dtype : Nat
  number : Rat
  special : List Int
deriving Repr, DecidableEq

/-- Supported `call_function` targets (the fixed set in
`TOSASupportedOperators.is_node_supported`, lines 66-80), plus `other` for
any target outside that set. -/
inductive AtenOp where
  | add
  | addmm
  | permuteCopy
  | hardtanh
  | convolution
  | divTensor
  | batchNormNoTraining
  | avgPool2d
  | softmax
  | getitem
  | other (s : String)
deriving Repr, DecidableEq

/-- A graph node's `target`: an operator for `call_function` nodes, a plain
string for `placeholder` nodes. -/
inductive Target where
  | aten (a : AtenOp)
  | str (s : String)
deriving Repr, DecidableEq

/-- A graph node, with its operands already resolved to `TosaArg` views
(`op` is the FX opcode string; `outNames` holds the result names listed by
an `output` node's first argument). -/
structure FxNode where
  op : String
  name : String
  target : Target
  args : List TosaArg
  outNames : List String
  shape : List Nat
  dtype : Nat
deriving Repr, DecidableEq

/-- Line 279: `TosaArg(node)` — the node's own tensor view. -/
def nodeArg (n : FxNode) : TosaArg :=
  ⟨n.name, n.shape, n.dtype, 0, []⟩

/-- Values held in `edge_program.state_dict`. -/
inductive PyVal where
  | tensor (vals : List Rat)
  | nonTensor
deriving Repr, DecidableEq

/-- The slice of `ExportedProgram` the backend reads: the node list, the
graph signature's name maps and the state dict. -/
structure EdgeProgram where
  nodes : List FxNode
  inputsToParameters : List (String × String)
  inputsToBuffers : List (String × String)
  stateDict : List (String × PyVal)
deriving Repr, DecidableEq

/-- Association-list lookup (Python `dict` membership/indexing). -/
def alistLookup {α : Type} : List (String × α) → String → Option α
  | [], _ => none
  | (k, a) :: rest, key => if k = key then some a else alistLookup rest key

/-! ## TOSA serializer interface model

`serializer.tosa_serializer` is an external library; we model the slice of
its interface the backend uses: tensor/const/input/output declaration and
operator append, with intermediate and const names generated from a
counter (`addIntermediate`/`addConst` generate fresh names in the real
serializer). -/

/-- TOSA opcodes used by the backend, plus `INTDIV` (the only division
opcode in the TOSA opcode set, never used here). -/
inductive TosaOpc where
  | ADD
  | SUB
  | MUL
  | MATMUL
  | RESHAPE
  | TRANSPOSE
  | CLAMP
  | CONV2D
  | DEPTHWISE_CONV2D
  | RECIPROCAL
  | RSQRT
  | EXP
  | REDUCE_MAX
  | REDUCE_SUM
  | AVG_POOL2D
  | IDENTITY
  | INTDIV
deriving Repr, DecidableEq

/-- Serializer attribute payloads built by the backend. -/
inductive TosaAttr where
  | noAttr
  | matmulAttr
  | mulAttr
  | reshapeAttr (shape : List Nat)
  | transposeAttr (order : List Int)
  | clampAttr (imin imax : Int) (fmin fmax : Rat)
  | convAttr (pad stride dilation : List Int)
  | axisAttr (axis : Int)
  | poolAttr (kernel stride pad : List Int)
deriving Repr, DecidableEq

/-- One serialized instruction (`addOperator` record). -/
structure Instr where
  opc : TosaOpc
  ins : List String
  outs : List String
  attr : TosaAttr
deriving Repr, DecidableEq

/-- The running serializer state (`tosa_fb`). -/
structure TosaFB where
  tensors : List (String × List Nat × Nat)
  consts : List (String × List Nat × Nat × List Rat)
  inputTensors : List (String × List Nat × Nat)
  outputTensors : List String
  instrs : List Instr
  counter : Nat
deriving Repr, DecidableEq

/-- The empty serializer state. -/
def TosaFB.empty : TosaFB := ⟨[], [], [], [], [], 0⟩

/-- Generated name of the `n`-th intermediate/const tensor. -/
def genName (n : Nat) : String :=
  "layer_" ++ toString n

/-- `addTensor`: record a declared tensor. -/
def TosaFB.addTensor (fb : TosaFB) (name : String) (shape : List Nat)
    (dtype : Nat) : TosaFB :=
  { fb with tensors := fb.tensors ++ [(name, shape, dtype)] }

/-- `addIntermediate`: declare a fresh intermediate tensor and return its
operand view. -/
def TosaFB.addIntermediate (fb : TosaFB) (shape : List Nat) (dtype : Nat) :
    TosaArg × TosaFB :=
  let nm := genName fb.counter
  (⟨nm, shape, dtype, 0, []⟩,
   { fb with counter := fb.counter + 1,
             tensors := fb.tensors ++ [(nm, shape, dtype)] })

/-- `addConst` without an explicit name: declare a fresh constant tensor. -/
def TosaFB.addConst (fb : TosaFB) (shape : List Nat) (dtype : Nat)
    (vals : List Rat) : TosaArg × TosaFB :=
  let nm := genName fb.counter
  (⟨nm, shape, dtype, 0, []⟩,
   { fb with counter := fb.counter + 1,
             consts := fb.consts ++ [(nm, shape, dtype, vals)] })

/-- `addConst` with an explicit `name=` (placeholder lowering). -/
def TosaFB.addConstNamed (fb : TosaFB) (shape : List Nat) (dtype : Nat)
    (vals : List Rat) (name : String) : TosaFB :=
  { fb with consts := fb.consts ++ [(name, shape, dtype, vals)] }

/-- `addOperator`: append one instruction. -/
def TosaFB.addOperator (fb : TosaFB) (opc : TosaOpc) (ins outs : List String)
    (attr : TosaAttr) : TosaFB :=
  { fb with instrs := fb.instrs ++ [⟨opc, ins, outs, attr⟩] }

/-- `addInputTensor`: record a graph input tensor. -/
def TosaFB.addInputTensor (fb : TosaFB) (name : String) (shape : List Nat)
    (dtype : Nat) : TosaFB :=
  { fb with inputTensors := fb.inputTensors ++ [(name, shape, dtype)] }

/-- `addOutputTensor`: record a graph output tensor name. -/
def TosaFB.addOutputTensor (fb : TosaFB) (name : String) : TosaFB :=
  { fb with outputTensors := fb.outputTensors ++ [name] }

/-- Python exception outcomes of the backend code. `dbgFail` is the
`dbg_fail` path (lines 203-208): it dumps the IR built so far and the
node's identity/target/args/meta, then raises `RuntimeError`; every other
constructor carries no node report and produces no dump. -/
inductive PyErr where
  | assertError (msg : String)
  | indexError
  | valueError
  | keyError
  | runtimeError (msg : String)
  | dbgFail (nodeName : String)
deriving Repr, DecidableEq

/-! ## Python-semantics helpers -/

/-- Python list indexing `l[i]` with negative-index wrap-around; `none`
models `IndexError`. -/
def pyGet (l : List Nat) (i : Int) : Option Nat :=
  if 0 ≤ i then l.get? i.toNat
  else if (-i).toNat ≤ l.length then l.get? (l.length - (-i).toNat)
  else none

/-- Python list assignment `l[i] = v` with negative-index wrap-around;
`none` models `IndexError`. -/
def pySet (l : List Nat) (i : Int) (v : Nat) : Option (List Nat) :=
  if 0 ≤ i then
    if i.toNat < l.length then some (l.set i.toNat v) else none
  else if (-i).toNat ≤ l.length then some (l.set (l.length - (-i).toNat) v)
  else none

/-- The comprehension `[l[i] for i in order]`: all-or-nothing Python
indexing, `none` on the first `IndexError`. -/
def pyGather (l : List Nat) : List Int → Option (List Nat)
  | [] => some []
  | i :: rest =>
    match pyGet l i, pyGather l rest with
    | some v, some vs => some (v :: vs)
    | _, _ => none

/-- Python `int(x)` on a float: truncation toward zero. -/
def ratTrunc (q : Rat) : Int :=
  Int.tdiv q.num (q.den : Int)

/-- The float literal `0.1` (the only momentum the backend accepts). -/
def ratTenth : Rat := ⟨1, 10, by norm_num, Nat.coprime_one_left 10⟩

/-! ## Lowering helpers (`promote_shape`, `transpose_helper`) -/

/-- Lines 214-220 (`promote_shape`): assert the element count is preserved,
then declare an intermediate of the promoted shape and emit a `RESHAPE`
into it. `np.prod` of a shape is the product of its entries (1 when
empty). -/
def promote_shape (fb : TosaFB) (arg : TosaArg) (promoted : List Nat)
    (outDtype : Nat) : Except PyErr (TosaArg × TosaFB) :=
  if arg.shape.prod = promoted.prod then
    let (res, fb1) := fb.addIntermediate promoted outDtype
    .ok (res, fb1.addOperator .RESHAPE [arg.name] [res.name]
          (.reshapeAttr promoted))
  else .error (.assertError "Incompatible promoted shape")

/-- Lines 226-247 (`transpose_helper`): assert the permutation length
matches the input rank and that it has no duplicates (`len(set(...))`);
the source's per-index range checks are `assert True` statements and check
nothing, so the only remaining failure is the Python `IndexError` raised
by `[input.shape[i] for i in new_order]`; on success declare an
intermediate with the permuted shape and emit a `TRANSPOSE`. -/
def transpose_helper (fb : TosaFB) (input : TosaArg) (newOrder : List Int)
    (outDtype : Nat) : Except PyErr (TosaArg × TosaFB) :=
  if input.shape.length ≠ newOrder.length then
    .error (.assertError "Wrong shape order length")
  else if newOrder.dedup.length ≠ newOrder.length then
    .error (.assertError "Contain duplicated dim numbers")
  else
    match pyGather input.shape newOrder with
    | none => .error .indexError
    | some shp =>
      let (res, fb1) := fb.addIntermediate shp outDtype
      .ok (res, fb1.addOperator .TRANSPOSE [input.name] [res.name]
            (.transposeAttr newOrder))

/-! ## Operator dispatch -/

/-- `tosa_mapping.op` (module not under `src/`). Modelled from the spec:
section 4.4 lists elementwise add as the only simple 1:1-mapped instruction
among the supported operators; every other supported target is handled by
an explicit decomposition branch in `preprocess` (so must map to `None`
there), and unsupported targets have no mapping. -/
def tosaMappingOp : Target → Option TosaOpc
  | .aten .add => some .ADD
  | _ => none

/-- Lines 83-92 (`attr_torch_to_tosa`): a `MATMUL` opcode gets a MatMul
attribute, a `MUL` opcode gets a Mul attribute, anything else `None`. -/
def attr_torch_to_tosa : Option TosaOpc → TosaAttr
  | some .MATMUL => .matmulAttr
  | some .MUL => .mulAttr
  | _ => .noAttr

/-- Lines 289-296: the simple 1:1 path — assert exactly two operands and
that both operand dtypes equal the output dtype, then emit the mapped
opcode. -/
def lowerSimple (fb : TosaFB) (o : TosaOpc) (attr : TosaAttr)
    (inputs : List TosaArg) (outp : TosaArg) : Except PyErr TosaFB :=
  match inputs with
  | [a, b] =>
    if a.dtype ≠ outp.dtype then .error (.assertError "")
    else if b.dtype ≠ outp.dtype then .error (.assertError "")
    else .ok (fb.addOperator o [a.name, b.name] [outp.name] attr)
  | _ => .error (.assertError "")

/-- Lines 299-347: the `addmm` branch — promote input and weight by one
leading singleton, bias by two, emit `MATMUL` into a batched intermediate,
`ADD` of reshaped bias and matmul result, and a final `RESHAPE` to the
output shape. `inputs` unpacks as `bias, input, weight`. -/
def lowerAddmm (fb : TosaFB) (inputs : List TosaArg) (outp : TosaArg) :
    Except PyErr TosaFB :=
  match inputs with
  | [bias, input, weight] =>
    match promote_shape fb input (1 :: input.shape) outp.dtype with
    | .error e => .error e
    | .ok (inR, fb1) =>
      match promote_shape fb1 weight (1 :: weight.shape) outp.dtype with
      | .error e => .error e
      | .ok (wR, fb2) =>
        match promote_shape fb2 bias (1 :: 1 :: bias.shape) outp.dtype with
        | .error e => .error e
        | .ok (bR, fb3) =>
          match pyGet input.shape 0, pyGet weight.shape 1 with
          | some m, some k =>
            let mmShape := [1, m, k]
            let (mmRes, fb4) := fb3.addIntermediate mmShape outp.dtype
            let fb5 := fb4.addOperator .MATMUL [inR.name, wR.name]
                [mmRes.name] (attr_torch_to_tosa (some .MATMUL))
            let (addRes, fb6) := fb5.addIntermediate mmShape outp.dtype
            let fb7 := fb6.addOperator .ADD [bR.name, mmRes.name]
                [addRes.name] .noAttr
            .ok (fb7.addOperator .RESHAPE [addRes.name] [outp.name]
                  (.reshapeAttr outp.shape))
          | _, _ => .error .indexError
  | _ => .error .valueError

/-- Lines 348-353: the `permute_copy` branch — one `TRANSPOSE` carrying the
permutation attribute `inputs[1].special`. -/
def lowerPermute (fb : TosaFB) (inputs : List TosaArg) (outp : TosaArg) :
    Except PyErr TosaFB :=
  match inputs with
  | a :: b :: _ =>
    .ok (fb.addOperator .TRANSPOSE [a.name] [outp.name]
          (.transposeAttr b.special))
  | _ => .error .indexError

/-- Lines 354-365: the `hardtanh` branch — one `CLAMP` carrying integer and
float forms of both bounds. -/
def lowerHardtanh (fb : TosaFB) (inputs : List TosaArg) (outp : TosaArg) :
    Except PyErr TosaFB :=
  match inputs with
  | a :: b :: c :: _ =>
    .ok (fb.addOperator .CLAMP [a.name] [outp.name]
          (.clampAttr (ratTrunc b.number) (ratTrunc c.number)
            b.number c.number))
  | _ => .error .indexError

/-- Lines 446-462: the `div.Tensor` branch — `RECIPROCAL` of the divisor
into a fresh intermediate, then `MUL` of the dividend with it. -/
def lowerDiv (fb : TosaFB) (inputs : List TosaArg) (outp : TosaArg) :
    Except PyErr TosaFB :=
  match inputs with
  | a :: b :: _ =>
    let (recip, fb1) := fb.addIntermediate b.shape b.dtype
    let fb2 := fb1.addOperator .RECIPROCAL [b.name] [recip.name] .noAttr
    .ok (fb2.addOperator .MUL [a.name, recip.name] [outp.name] .mulAttr)
  | _ => .error .indexError

/-- Lines 366-445: the `convolution` branch — transpose the input to NHWC;
depthwise (`group > 1`) or standard convolution on transposed weights with
the padding list expanded to (low, high) pairs; transpose the result back
to NCHW. -/
def lowerConv (fb : TosaFB) (inputs : List TosaArg) (outp : TosaArg) :
    Except PyErr TosaFB :=
  match inputs with
  | [input, weight, bias, stride, pad, dilation, _t, _o, group] =>
    match transpose_helper fb input [0, 2, 3, 1] outp.dtype with
    | .error e => .error e
    | .ok (inT, fb1) =>
      let attr := TosaAttr.convAttr
        (pad.special.flatMap (fun v => [v, v])) stride.special dilation.special
      if 1 < group.number then
        match transpose_helper fb1 weight [2, 3, 0, 1] outp.dtype with
        | .error e => .error e
        | .ok (wT, fb2) =>
          match pyGather outp.shape [0, 2, 3, 1] with
          | none => .error .indexError
          | some outShape =>
            let (convRes, fb3) := fb2.addIntermediate outShape outp.dtype
            let fb4 := fb3.addOperator .DEPTHWISE_CONV2D
                [inT.name, wT.name, bias.name] [convRes.name] attr
            .ok (fb4.addOperator .TRANSPOSE [convRes.name] [outp.name]
                  (.transposeAttr [0, 3, 1, 2]))
      else
        match transpose_helper fb1 weight [0, 2, 3, 1] outp.dtype with
        | .error e => .error e
        | .ok (wT, fb2) =>
          match pyGather outp.shape [0, 2, 3, 1] with
          | none => .error .indexError
          | some outShape =>
            let (convRes, fb3) := fb2.addIntermediate outShape outp.dtype
            let fb4 := fb3.addOperator .CONV2D
                [inT.name, wT.name, bias.name] [convRes.name] attr
            .ok (fb4.addOperator .TRANSPOSE [convRes.name] [outp.name]
                  (.transposeAttr [0, 3, 1, 2]))
  | _ => .error .valueError

/-- Lines 463-546: the `_native_batch_norm_legit_no_training` branch —
weight and bias operands are discarded by the unpacking; assert momentum is
0.1; then reshape mean, subtract, add an epsilon constant to the variance,
rsqrt, reshape, and multiply into the output. -/
def lowerBatchnorm (fb : TosaFB) (inputs : List TosaArg) (outp : TosaArg) :
    Except PyErr TosaFB :=
  match inputs with
  | [activations, _w, _b, runningMean, runningVar, momentum, epsilon] =>
    let inputDtype := activations.dtype
    let inputShape := activations.shape
    if ratTenth ≠ momentum.number then
      .error (.assertError "Expected 0.1 momentum, not currently encoded into TOSA")
    else
      match promote_shape fb runningMean (1 :: runningMean.shape ++ [1, 1])
          inputDtype with
      | .error e => .error e
      | .ok (meanR, fb1) =>
        let (int1, fb2) := fb1.addIntermediate inputShape inputDtype
        let fb3 := fb2.addOperator .SUB [activations.name, meanR.name]
            [int1.name] .noAttr
        let (epsConst, fb4) := fb3.addConst [1] inputDtype [epsilon.number]
        let (int2, fb5) := fb4.addIntermediate runningVar.shape inputDtype
        let fb6 := fb5.addOperator .ADD [runningVar.name, epsConst.name]
            [int2.name] .noAttr
        let (int3, fb7) := fb6.addIntermediate runningVar.shape inputDtype
        let fb8 := fb7.addOperator .RSQRT [int2.name] [int3.name] .noAttr
        match promote_shape fb8 int3 (1 :: runningVar.shape ++ [1, 1])
            inputDtype with
        | .error e => .error e
        | .ok (varR, fb9) =>
          .ok (fb9.addOperator .MUL [int1.name, varR.name] [outp.name]
                (attr_torch_to_tosa (some .MUL)))
  | _ => .error .valueError

/-- Lines 547-593: the `avg_pool2d` branch — transpose input to NHWC, one
`AVG_POOL2D` carrying kernel/stride/pad (pad defaulting to zeros when the
fourth operand is absent), transpose back to NCHW. -/
def lowerAvgPool (fb : TosaFB) (inputs : List TosaArg) (outp : TosaArg) :
    Except PyErr TosaFB :=
  match inputs with
  | inputTensor :: kernel :: stride :: rest =>
    let padList := match rest with
      | p :: _ => p.special
      | [] => [0, 0, 0, 0]
    let attr := TosaAttr.poolAttr kernel.special stride.special padList
    match transpose_helper fb inputTensor [0, 2, 3, 1] outp.dtype with
    | .error e => .error e
    | .ok (inT, fb1) =>
      match pyGather outp.shape [0, 2, 3, 1] with
      | none => .error .indexError
      | some resShape =>
        let (poolRes, fb2) := fb1.addIntermediate resShape outp.dtype
        let fb3 := fb2.addOperator .AVG_POOL2D [inT.name] [poolRes.name] attr
        .ok (fb3.addOperator .TRANSPOSE [poolRes.name] [outp.name]
              (.transposeAttr [0, 3, 1, 2]))
  | _ => .error .indexError

/-- Lines 594-666: the `_softmax` branch — `REDUCE_MAX` along the axis,
`SUB` of the max from the input, `EXP`, `REDUCE_SUM` along the axis,
`RECIPROCAL`, and a final `MUL` into the output. -/
def lowerSoftmax (fb : TosaFB) (inputs : List TosaArg) (outp : TosaArg) :
    Except PyErr TosaFB :=
  match inputs with
  | inp :: dimArg :: _ =>
    let inputName := inp.name
    let inputShape := inp.shape
    let dimValue := ratTrunc dimArg.number
    match pySet inputShape dimValue 1 with
    | none => .error .indexError
    | some reducedShape =>
      let (reduceMaxRes, fb1) := fb.addIntermediate reducedShape outp.dtype
      let fb2 := fb1.addOperator .REDUCE_MAX [inputName]
          [reduceMaxRes.name] (.axisAttr dimValue)
      let (subRes, fb3) := fb2.addIntermediate inputShape outp.dtype
      let fb4 := fb3.addOperator .SUB [inputName, reduceMaxRes.name]
          [subRes.name] .noAttr
      let (expRes, fb5) := fb4.addIntermediate inputShape outp.dtype
      let fb6 := fb5.addOperator .EXP [subRes.name] [expRes.name] .noAttr
      let (reduceSumRes, fb7) := fb6.addIntermediate reducedShape outp.dtype
      let fb8 := fb7.addOperator .REDUCE_SUM [expRes.name]
          [reduceSumRes.name] (.axisAttr dimValue)
      let (invSum, fb9) := fb8.addIntermediate reducedShape outp.dtype
      let fb10 := fb9.addOperator .RECIPROCAL [reduceSumRes.name]
          [invSum.name] .noAttr
      .ok (fb10.addOperator .MUL [expRes.name, invSum.name] [outp.name]
            .mulAttr)
  | _ => .error .indexError

/-- Lines 667-672: the `getitem` branch — one `IDENTITY`. -/
def lowerGetitem (fb : TosaFB) (inputs : List TosaArg) (outp : TosaArg) :
    Except PyErr TosaFB :=
  match inputs with
  | item :: _ =>
    .ok (fb.addOperator .IDENTITY [item.name] [outp.name] .noAttr)
  | _ => .error .indexError

/-- Lines 272-676: processing of one `call_function` node — resolve
operands and output, declare the output tensor, then dispatch on the
mapped opcode or the target-specific decomposition branch; an unknown
target raises `RuntimeError`. -/
def processCallFunction (fb : TosaFB) (node : FxNode) : Except PyErr TosaFB :=
  let inputs := node.args
  let outp := nodeArg node
  let fb0 := fb.addTensor outp.name outp.shape outp.dtype
  let op := tosaMappingOp node.target
  let attr := attr_torch_to_tosa op
  match op with
  | some o => lowerSimple fb0 o attr inputs outp
  | none =>
    match node.target with
    | .aten .addmm => lowerAddmm fb0 inputs outp
    | .aten .permuteCopy => lowerPermute fb0 inputs outp
    | .aten .hardtanh => lowerHardtanh fb0 inputs outp
    | .aten .convolution => lowerConv fb0 inputs outp
    | .aten .divTensor => lowerDiv fb0 inputs outp
    | .aten .batchNormNoTraining => lowerBatchnorm fb0 inputs outp
    | .aten .avgPool2d => lowerAvgPool fb0 inputs outp
    | .aten .softmax => lowerSoftmax fb0 inputs outp
    | .aten .getitem => lowerGetitem fb0 inputs outp
    | _ => .error (.runtimeError "Unknown operator")

/-- Lines 678-720: processing of one `placeholder` node — assert the node
name equals its target and that it has no (default) arguments, then
declare a constant from the parameter or buffer backing it, or else a
graph input tensor. -/
def processPlaceholder (ep : EdgeProgram) (fb : TosaFB) (node : FxNode) :
    Except PyErr TosaFB :=
  if node.target ≠ .str node.name then
    .error (.assertError "Expect placeholder name and target to match")
  else if node.args ≠ [] then
    .error (.assertError "Can't handle default input values")
  else
    let arg := nodeArg node
    let out := node.name
    match alistLookup ep.inputsToParameters out with
    | some parameterName =>
      match alistLookup ep.stateDict parameterName with
      | none => .error .keyError
      | some (.tensor vals) =>
        .ok (fb.addConstNamed arg.shape arg.dtype vals out)
      | some .nonTensor => .error (.assertError "Expect Attr to be tensor")
    | none =>
      match alistLookup ep.inputsToBuffers out with
      | some parameterName =>
        match alistLookup ep.stateDict parameterName with
        | none => .error .keyError
        | some (.tensor vals) =>
          .ok (fb.addConstNamed arg.shape arg.dtype vals out)
        | some .nonTensor => .error (.assertError "Expect Attr to be tensor")
      | none => .ok (fb.addInputTensor arg.name arg.shape arg.dtype)

/-- Lines 722-727: processing of one `output` node — mark each referenced
tensor, which must already be declared (`KeyError` otherwise), as a module
output. -/
def processOutput (fb : TosaFB) : List String → Except PyErr TosaFB
  | [] => .ok fb
  | nm :: rest =>
    if (fb.tensors.map (fun t => t.1)).contains nm then
      processOutput (fb.addOutputTensor nm) rest
    else .error .keyError

/-- Lines 271-732: processing of one graph node — dispatch on the FX opcode
string; any other opcode goes through `dbg_fail` (diagnostic dump, then
`RuntimeError`). -/
def processNode (ep : EdgeProgram) (fb : TosaFB) (node : FxNode) :
    Except PyErr TosaFB :=
  if node.op = "call_function" then processCallFunction fb node
  else if node.op = "placeholder" then processPlaceholder ep fb node
  else if node.op = "output" then processOutput fb node.outNames
  else .error (.dbgFail node.name)

/-- The whole node loop of `ArmBackend.preprocess` (lines 271-732): fold
`processNode` over the program's nodes, starting from an empty module. -/
def processGraph (ep : EdgeProgram) : Except PyErr TosaFB :=
  ep.nodes.foldlM (processNode ep) TosaFB.empty

/-! ## Spec-side definitions and proof-support predicates -/

/-- The spec's claimed size of a block's data field:
`ceil(length/16)*16`. -/
def claimCeilPadLen (len : Nat) : Nat :=
  ((len + 15) / 16) * 16

/-- Success of a lowering step. -/
def lowOk {α : Type} (e : Except PyErr α) : Prop :=
  ∃ a, e = Except.ok a

/-- `fb'` extends `fb` by instructions none of which is the TOSA integer
divide. -/
def NoNewDiv (fb fb' : TosaFB) : Prop :=
  ∀ i ∈ fb'.instrs, i ∈ fb.instrs ∨ i.opc ≠ TosaOpc.INTDIV

/-- The outcome is not the `dbg_fail` diagnostic path. -/
def NotDbgErr (r : Except PyErr TosaFB) : Prop :=
  ∀ e, r = Except.error e → ∀ s, e ≠ PyErr.dbgFail s

/-- Both branch-soundness facts at once: on success only non-divide
instructions were appended, and on failure the error did not go through
`dbg_fail`. -/
def BranchSound (fb : TosaFB) (r : Except PyErr TosaFB) : Prop :=
  (∀ fb', r = Except.ok fb' → NoNewDiv fb fb') ∧ NotDbgErr r

/-- The archive of the spec's packaging example: a 3-byte block `"a"`, a
20-byte block `"b"`, and the `scratch_shape` entry (an 8-byte-wide
1-element array holding the scratch size 10) from which the scratch size
is read. -/
def c4Archive : List (String × NpzArray) :=
  [("a", ⟨1, [1, 2, 3]⟩), ("b", ⟨1, List.range 20⟩),
   ("scratch_shape", ⟨8, [10]⟩)]

/-- The exact artifact the claim asserts for the example: header, a block
for `"a"` (length field 3, 16 data bytes), a block for `"b"` (length field
20, 32 data bytes), the synthesized `scratch_data` block (length field 16,
16 zero bytes), footer — and nothing else. (For 3- and 20-byte data the
code's padding agrees with the claimed `ceil` padding, so `encBlock`
produces exactly the claimed block images here.) -/
def c4ClaimedArtifact : List Nat :=
  velaHeader ++ encBlock "a" [1, 2, 3] ++ encBlock "b" (List.range 20) ++
    encScratchBlock 10 ++ velaFooter

/-- Number of instructions in the serializer state after a lowering step
(zero on failure). -/
def emittedCount (r : Except PyErr TosaFB) : Nat :=
  match r with
  | .ok fb' => fb'.instrs.length
  | .error _ => 0

/-! ## Claims -/

/-- C1 (counterexample): for a block whose raw data is already a 16-byte
multiple (here 16 bytes), the code's data field has 32 bytes, not the
claimed `ceil(16/16)*16 = 16`: sixteen extra zero bytes are appended. -/
theorem C1_counterexample :
    (padBlockData (List.replicate 16 1)).length ≠
      claimCeilPadLen (List.replicate 16 1).length ∧
    (padBlockData (List.replicate 16 1)).length = 32 ∧
    claimCeilPadLen (List.replicate 16 1).length = 16 := by
  decide

/-- C1 (amended): the data field of every block read from the archive
occupies exactly `(floor(length/16) + 1) * 16` bytes — the raw data
followed by between 1 and 16 zero bytes up to the next strictly larger
16-byte boundary; in particular a block whose unpadded length is already a
multiple of 16 is followed by 16 extra zero padding bytes. -/
theorem C1_amended (data : List Nat) :
    (padBlockData data).length = (data.length / 16 + 1) * 16 ∧
    (padBlockData data).take data.length = data ∧
    ∀ b ∈ (padBlockData data).drop data.length, b = 0 := by
  refine ⟨?_, ?_, ?_⟩
  · simp only [padBlockData, List.length_append, List.length_replicate]
    omega
  · simp [padBlockData, List.take_left]
  · intro b hb
    simp only [padBlockData, List.drop_left] at hb
    exact List.eq_of_mem_replicate hb

/-- C4 (counterexample): packaging the example archive (blocks `"a"` of
3 bytes and `"b"` of 20 bytes, scratch size 10) does not produce the exact
byte sequence the claim lists — the loop also emits a block for the
`scratch_shape` archive entry itself. -/
theorem C4_counterexample :
    vela_compile_pack c4Archive ≠ some c4ClaimedArtifact := by
  set_option maxRecDepth 10000 in decide

/-- C4 (amended): packaging the example archive yields header, the claimed
block for `"a"` (length field 3, 16 padded data bytes), the claimed block
for `"b"` (length field 20, 32 padded data bytes), additionally a block
for the `scratch_shape` entry itself (length field 8, 16 padded data
bytes), the synthesized `scratch_data` block (length field 16, 16 zero
bytes), and the footer; packaging is a pure function of the archive
contents, hence deterministic. -/
theorem C4_amended :
    vela_compile_pack c4Archive =
      some (velaHeader ++ encBlock "a" [1, 2, 3] ++
        encBlock "b" (List.range 20) ++
        encBlock "scratch_shape" [10, 0, 0, 0, 0, 0, 0, 0] ++
        encScratchBlock 10 ++ velaFooter) ∧
    (padBlockData [1, 2, 3]).length = 16 ∧
    (padBlockData (List.range 20)).length = 32 ∧
    scratchPaddedLen 10 = 16 ∧
    velaHeader.length = 16 ∧ velaFooter.length = 16 := by
  refine ⟨?_, by decide, by decide, by decide, by decide, by decide⟩
  set_option maxRecDepth 10000 in decide

/-- `l.get? n` is some exactly below the length. -/
theorem listGetIsSome (l : List Nat) (n : Nat) :
    (l.get? n).isSome = true ↔ n < l.length := by
  rw [Option.isSome_iff_ne_none, ne_eq, List.get?_eq_none]
  omega

/-- Python indexing succeeds exactly on `-len ≤ i < len`. -/
theorem pyGet_isSome (l : List Nat) (i : Int) :
    (pyGet l i).isSome = true ↔ (-(l.length : Int) ≤ i ∧ i < l.length) := by
  by_cases h : 0 ≤ i
  · rw [pyGet, if_pos h, listGetIsSome]
    omega
  · rw [pyGet, if_neg h]
    by_cases h2 : (-i).toNat ≤ l.length
    · rw [if_pos h2, listGetIsSome]
      omega
    · rw [if_neg h2]
      simp only [Option.isSome_none, Bool.false_eq_true, false_iff]
      omega

/-- The indexing comprehension succeeds exactly when every index does. -/
theorem pyGather_isSome (l : List Nat) : ∀ order : List Int,
    (pyGather l order).isSome = true ↔ ∀ i ∈ order, (pyGet l i).isSome = true
  | [] => by simp [pyGather]
  | i :: rest => by
    have ih := pyGather_isSome l rest
    cases hg : pyGet l i <;> cases hr : pyGather l rest <;>
      simp_all [pyGather, List.forall_mem_cons]

/-- C2 (counterexample): a permutation containing the negative axis index
`-1` on a rank-2 input is accepted — the helper emits a transpose
instruction instead of failing, because Python's negative indexing resolves
`shape[-1]` and the source's range checks are `assert True` no-ops. -/
theorem C2_counterexample :
    transpose_helper TosaFB.empty ⟨"x", [2, 3], 0, 0, []⟩ [-1, 0] 0 =
      .ok (⟨"layer_0", [3, 2], 0, 0, []⟩,
        ⟨[("layer_0", [3, 2], 0)], [], [], [],
         [⟨.TRANSPOSE, ["x"], ["layer_0"], .transposeAttr [-1, 0]⟩], 1⟩) := by
  rfl

/-- C2 (amended): the layout-transpose helper fails exactly when the
permutation length differs from the input rank, or the permutation has a
duplicate axis index, or some axis index is outside Python's index range
`[-rank, rank)`; in particular every duplicate still fails, but a negative
index `-rank ≤ i < 0` is accepted (resolved as `rank + i`) and a transpose
instruction is emitted. -/
theorem C2_amended (fb : TosaFB) (input : TosaArg) (newOrder : List Int)
    (outDtype : Nat) :
    lowOk (transpose_helper fb input newOrder outDtype) ↔
      (input.shape.length = newOrder.length ∧
       newOrder.dedup.length = newOrder.length ∧
       ∀ i ∈ newOrder,
         -(input.shape.length : Int) ≤ i ∧ i < (input.shape.length : Int)) := by
  rw [transpose_helper]
  by_cases h1 : input.shape.length = newOrder.length
  · rw [if_neg (by simpa using h1)]
    by_cases h2 : newOrder.dedup.length = newOrder.length
    · rw [if_neg (by simpa using h2)]
      cases hg : pyGather input.shape newOrder with
      | none =>
        simp only [lowOk]
        constructor
        · rintro ⟨a, ha⟩
          cases ha
        · rintro ⟨-, -, hrange⟩
          have hs : (pyGather input.shape newOrder).isSome = true := by
            rw [pyGather_isSome]
            intro i hi
            rw [pyGet_isSome]
            exact hrange i hi
          rw [hg] at hs
          cases hs
      | some shp =>
        simp only [lowOk]
        constructor
        · intro _
          refine ⟨h1, h2, ?_⟩
          intro i hi
          rw [← pyGet_isSome]
          have hs : (pyGather input.shape newOrder).isSome = true := by
            rw [hg]; rfl
          rw [pyGather_isSome] at hs
          exact hs i hi
        · intro _
          exact ⟨_, rfl⟩
    · rw [if_pos h2]
      simp only [lowOk]
      constructor
      · rintro ⟨a, ha⟩
        cases ha
      · rintro ⟨-, hh2, -⟩
        exact absurd hh2 h2
  · rw [if_pos h1]
    simp only [lowOk]
    constructor
    · rintro ⟨a, ha⟩
      cases ha
    · rintro ⟨hh, -, -⟩
      exact absurd hh h1

/-- C2 (witness): a concrete in-range identity permutation on a rank-1
input satisfies the amended success characterization. -/
theorem C2_witness :
    lowOk (transpose_helper TosaFB.empty ⟨"y", [4], 0, 0, []⟩ [0] 0) :=
  (C2_amended TosaFB.empty ⟨"y", [4], 0, 0, []⟩ [0] 0).mpr (by decide)

/-- C9: lowering a placeholder node whose name differs from its target
string fails with the corresponding assertion, before anything is declared
(on this failure the serializer state is discarded — no input or constant
tensor is recorded). -/
theorem C9_placeholder (ep : EdgeProgram) (fb : TosaFB) (node : FxNode)
    (hop : node.op = "placeholder")
    (hne : node.target ≠ .str node.name) :
    processNode ep fb node =
      .error (.assertError "Expect placeholder name and target to match") := by
  rw [processNode, hop, if_neg (by decide), if_pos rfl, processPlaceholder,
    if_pos hne]

/-- C9 (witness): a concrete placeholder named `x` with target `y` fails
with the name/target assertion. -/
theorem C9_witness :
    processNode ⟨[], [], [], []⟩ TosaFB.empty
        ⟨"placeholder", "x", .str "y", [], [], [], 0⟩ =
      .error (.assertError "Expect placeholder name and target to match") :=
  C9_placeholder ⟨[], [], [], []⟩ TosaFB.empty
    ⟨"placeholder", "x", .str "y", [], [], [], 0⟩ rfl (by decide)

/-- Exact instruction trace of the `addmm` branch. -/
theorem lowerAddmm_spec (fb : TosaFB) (bias input weight outp : TosaArg)
    (m k : Nat)
    (hm : pyGet input.shape 0 = some m)
    (hk : pyGet weight.shape 1 = some k) :
    ∃ fb', lowerAddmm fb [bias, input, weight] outp = .ok fb' ∧
      fb'.instrs = fb.instrs ++
        [⟨.RESHAPE, [input.name], [genName fb.counter],
           .reshapeAttr (1 :: input.shape)⟩,
         ⟨.RESHAPE, [weight.name], [genName (fb.counter + 1)],
           .reshapeAttr (1 :: weight.shape)⟩,
         ⟨.RESHAPE, [bias.name], [genName (fb.counter + 2)],
           .reshapeAttr (1 :: 1 :: bias.shape)⟩,
         ⟨.MATMUL, [genName fb.counter, genName (fb.counter + 1)],
           [genName (fb.counter + 3)], .matmulAttr⟩,
         ⟨.ADD, [genName (fb.counter + 2), genName (fb.counter + 3)],
           [genName (fb.counter + 4)], .noAttr⟩,
         ⟨.RESHAPE, [genName (fb.counter + 4)], [outp.name],
           .reshapeAttr outp.shape⟩] := by
  simp only [lowerAddmm, promote_shape, TosaFB.addIntermediate,
    TosaFB.addOperator, attr_torch_to_tosa, List.prod_cons, one_mul,
    eq_self_iff_true, if_true, hm, hk]
  exact ⟨_, rfl, by simp⟩

/-- C6: every addmm node is lowered by promoting input and weight to
rank+1 with one prepended singleton and bias to rank+2 with two, then a
matrix multiply into a batched intermediate, then an add of the reshaped
bias and the matmul result, then a reshape back to the node's output
shape; prepending singletons preserves the shape product, and the shared
promotion helper succeeds exactly when the product is preserved (fatal
otherwise). -/
theorem C6_addmm (ep : EdgeProgram) (fb : TosaFB) (node : FxNode)
    (bias input weight : TosaArg) (m k : Nat)
    (hop : node.op = "call_function")
    (htgt : node.target = .aten .addmm)
    (hargs : node.args = [bias, input, weight])
    (hm : pyGet input.shape 0 = some m)
    (hk : pyGet weight.shape 1 = some k) :
    (∃ fb', processNode ep fb node = .ok fb' ∧
      fb'.instrs = fb.instrs ++
        [⟨.RESHAPE, [input.name], [genName fb.counter],
           .reshapeAttr (1 :: input.shape)⟩,
         ⟨.RESHAPE, [weight.name], [genName (fb.counter + 1)],
           .reshapeAttr (1 :: weight.shape)⟩,
         ⟨.RESHAPE, [bias.name], [genName (fb.counter + 2)],
           .reshapeAttr (1 :: 1 :: bias.shape)⟩,
         ⟨.MATMUL, [genName fb.counter, genName (fb.counter + 1)],
           [genName (fb.counter + 3)], .matmulAttr⟩,
         ⟨.ADD, [genName (fb.counter + 2), genName (fb.counter + 3)],
           [genName (fb.counter + 4)], .noAttr⟩,
         ⟨.RESHAPE, [genName (fb.counter + 4)], [node.name],
           .reshapeAttr node.shape⟩]) ∧
    (1 :: input.shape).prod = input.shape.prod ∧
    (1 :: weight.shape).prod = weight.shape.prod ∧
    (1 :: 1 :: bias.shape).prod = bias.shape.prod ∧
    (∀ fb2 arg promoted dt, lowOk (promote_shape fb2 arg promoted dt) ↔
      arg.shape.prod = promoted.prod) := by
  refine ⟨?_, by simp, by simp, by simp, ?_⟩
  · obtain ⟨fb', heq, hinstr⟩ :=
      lowerAddmm_spec (fb.addTensor node.name node.shape node.dtype)
        bias input weight ⟨node.name, node.shape, node.dtype, 0, []⟩ m k hm hk
    refine ⟨fb', ?_, ?_⟩
    · rw [processNode, hop, if_pos rfl]
      simp only [processCallFunction, htgt, hargs, tosaMappingOp, nodeArg]
      exact heq
    · simpa [TosaFB.addTensor] using hinstr
  · intro fb2 arg promoted dt
    rw [promote_shape]
    by_cases h : arg.shape.prod = promoted.prod
    · rw [if_pos h]
      exact iff_of_true ⟨_, rfl⟩ h
    · rw [if_neg h]
      refine iff_of_false ?_ h
      rintro ⟨a, ha⟩
      cases ha

/-- C6 (witness): a concrete addmm node over a 2x3 input and 3x2 weight
lowers successfully. -/
theorem C6_witness :
    lowOk (processNode ⟨[], [], [], []⟩ TosaFB.empty
      ⟨"call_function", "mm", .aten .addmm,
       [⟨"b0", [2], 0, 0, []⟩, ⟨"i0", [2, 3], 0, 0, []⟩,
        ⟨"w0", [3, 2], 0, 0, []⟩], [], [2, 2], 0⟩) := by
  obtain ⟨fb', heq, -⟩ :=
    (C6_addmm ⟨[], [], [], []⟩ TosaFB.empty
      ⟨"call_function", "mm", .aten .addmm,
       [⟨"b0", [2], 0, 0, []⟩, ⟨"i0", [2, 3], 0, 0, []⟩,
        ⟨"w0", [3, 2], 0, 0, []⟩], [], [2, 2], 0⟩
      ⟨"b0", [2], 0, 0, []⟩ ⟨"i0", [2, 3], 0, 0, []⟩ ⟨"w0", [3, 2], 0, 0, []⟩
      2 2 rfl rfl rfl (by decide) (by decide)).1
  exact ⟨fb', heq⟩

/-- Exact instruction trace of the batch-norm branch. -/
theorem lowerBatchnorm_spec (fb : TosaFB)
    (act w b mean var mom eps outp : TosaArg)
    (hmom : mom.number = ratTenth) :
    ∃ fb', lowerBatchnorm fb [act, w, b, mean, var, mom, eps] outp = .ok fb' ∧
      fb'.instrs = fb.instrs ++
        [⟨.RESHAPE, [mean.name], [genName fb.counter],
           .reshapeAttr (1 :: mean.shape ++ [1, 1])⟩,
         ⟨.SUB, [act.name, genName fb.counter], [genName (fb.counter + 1)],
           .noAttr⟩,
         ⟨.ADD, [var.name, genName (fb.counter + 2)],
           [genName (fb.counter + 3)], .noAttr⟩,
         ⟨.RSQRT, [genName (fb.counter + 3)], [genName (fb.counter + 4)],
           .noAttr⟩,
         ⟨.RESHAPE, [genName (fb.counter + 4)], [genName (fb.counter + 5)],
           .reshapeAttr (1 :: var.shape ++ [1, 1])⟩,
         ⟨.MUL, [genName (fb.counter + 1), genName (fb.counter + 5)],
           [outp.name], .mulAttr⟩] := by
  simp only [lowerBatchnorm, hmom, promote_shape, TosaFB.addIntermediate,
    TosaFB.addConst, TosaFB.addOperator, attr_torch_to_tosa,
    List.prod_cons, List.prod_append, List.prod_nil, one_mul, mul_one,
    eq_self_iff_true, if_true, ne_eq, not_true_eq_false, if_false]
  exact ⟨_, rfl, by simp⟩

/-- C10: every batch-norm node discards its weight and bias operands: the
emitted sequence is exactly reshape(mean), subtract, add-epsilon-constant,
rsqrt, reshape, multiply into the output — computing
`(input - running_mean) * rsqrt(running_var + epsilon)` with no
multiply-by-weight and no add-of-bias instruction — and the lowering
result does not depend on the weight and bias operands at all. -/
theorem C10_batchnorm (ep : EdgeProgram) (fb : TosaFB) (node : FxNode)
    (act w b mean var mom eps : TosaArg)
    (hop : node.op = "call_function")
    (htgt : node.target = .aten .batchNormNoTraining)
    (hargs : node.args = [act, w, b, mean, var, mom, eps])
    (hmom : mom.number = ratTenth) :
    (∃ fb', processNode ep fb node = .ok fb' ∧
      fb'.instrs = fb.instrs ++
        [⟨.RESHAPE, [mean.name], [genName fb.counter],
           .reshapeAttr (1 :: mean.shape ++ [1, 1])⟩,
         ⟨.SUB, [act.name, genName fb.counter], [genName (fb.counter + 1)],
           .noAttr⟩,
         ⟨.ADD, [var.name, genName (fb.counter + 2)],
           [genName (fb.counter + 3)], .noAttr⟩,
         ⟨.RSQRT, [genName (fb.counter + 3)], [genName (fb.counter + 4)],
           .noAttr⟩,
         ⟨.RESHAPE, [genName (fb.counter + 4)], [genName (fb.counter + 5)],
           .reshapeAttr (1 :: var.shape ++ [1, 1])⟩,
         ⟨.MUL, [genName (fb.counter + 1), genName (fb.counter + 5)],
           [node.name], .mulAttr⟩]) ∧
    (∀ fb2 outp w' b',
      lowerBatchnorm fb2 [act, w', b', mean, var, mom, eps] outp =
        lowerBatchnorm fb2 [act, w, b, mean, var, mom, eps] outp) := by
  refine ⟨?_, fun fb2 outp w' b' => rfl⟩
  obtain ⟨fb', heq, hinstr⟩ :=
    lowerBatchnorm_spec (fb.addTensor node.name node.shape node.dtype)
      act w b mean var mom eps ⟨node.name, node.shape, node.dtype, 0, []⟩ hmom
  refine ⟨fb', ?_, ?_⟩
  · rw [processNode, hop, if_pos rfl]
    simp only [processCallFunction, htgt, hargs, tosaMappingOp, nodeArg]
    exact heq
  · simpa [TosaFB.addTensor] using hinstr

/-- C10 (witness): a concrete batch-norm node with momentum 0.1 lowers
successfully. -/
theorem C10_witness :
    lowOk (processNode ⟨[], [], [], []⟩ TosaFB.empty
      ⟨"call_function", "bn", .aten .batchNormNoTraining,
       [⟨"x", [1, 2, 2, 2], 0, 0, []⟩, ⟨"w", [2], 0, 0, []⟩,
        ⟨"b", [2], 0, 0, []⟩, ⟨"m", [2], 0, 0, []⟩, ⟨"v", [2], 0, 0, []⟩,
        ⟨"mo", [], 0, ratTenth, []⟩, ⟨"e", [], 0, 0, []⟩],
       [], [1, 2, 2, 2], 0⟩) := by
  obtain ⟨fb', heq, -⟩ :=
    (C10_batchnorm ⟨[], [], [], []⟩ TosaFB.empty
      ⟨"call_function", "bn", .aten .batchNormNoTraining,
       [⟨"x", [1, 2, 2, 2], 0, 0, []⟩, ⟨"w", [2], 0, 0, []⟩,
        ⟨"b", [2], 0, 0, []⟩, ⟨"m", [2], 0, 0, []⟩, ⟨"v", [2], 0, 0, []⟩,
        ⟨"mo", [], 0, ratTenth, []⟩, ⟨"e", [], 0, 0, []⟩],
       [], [1, 2, 2, 2], 0⟩
      ⟨"x", [1, 2, 2, 2], 0, 0, []⟩ ⟨"w", [2], 0, 0, []⟩ ⟨"b", [2], 0, 0, []⟩
      ⟨"m", [2], 0, 0, []⟩ ⟨"v", [2], 0, 0, []⟩ ⟨"mo", [], 0, ratTenth, []⟩
      ⟨"e", [], 0, 0, []⟩ rfl rfl rfl rfl).1
  exact ⟨fb', heq⟩

/-- Exact instruction trace of the softmax branch. -/
theorem lowerSoftmax_spec (fb : TosaFB) (inp dimArg outp : TosaArg)
    (rest : List TosaArg) (rs : List Nat)
    (hrs : pySet inp.shape (ratTrunc dimArg.number) 1 = some rs) :
    ∃ fb', lowerSoftmax fb (inp :: dimArg :: rest) outp = .ok fb' ∧
      fb'.instrs = fb.instrs ++
        [⟨.REDUCE_MAX, [inp.name], [genName fb.counter],
           .axisAttr (ratTrunc dimArg.number)⟩,
         ⟨.SUB, [inp.name, genName fb.counter], [genName (fb.counter + 1)],
           .noAttr⟩,
         ⟨.EXP, [genName (fb.counter + 1)], [genName (fb.counter + 2)],
           .noAttr⟩,
         ⟨.REDUCE_SUM, [genName (fb.counter + 2)], [genName (fb.counter + 3)],
           .axisAttr (ratTrunc dimArg.number)⟩,
         ⟨.RECIPROCAL, [genName (fb.counter + 3)], [genName (fb.counter + 4)],
           .noAttr⟩,
         ⟨.MUL, [genName (fb.counter + 2), genName (fb.counter + 4)],
           [outp.name], .mulAttr⟩] := by
  simp only [lowerSoftmax, hrs, TosaFB.addIntermediate, TosaFB.addOperator]
  exact ⟨_, rfl, by simp⟩

/-- C5 (counterexample): lowering a concrete softmax node emits six
instructions, not the five the claim counts. -/
theorem C5_counterexample :
    emittedCount (processNode ⟨[], [], [], []⟩ TosaFB.empty
      ⟨"call_function", "sm", .aten .softmax,
       [⟨"x", [2, 3], 0, 0, []⟩, ⟨"d", [], 0, 1, []⟩], [], [2, 3], 0⟩) = 6 ∧
    emittedCount (processNode ⟨[], [], [], []⟩ TosaFB.empty
      ⟨"call_function", "sm", .aten .softmax,
       [⟨"x", [2, 3], 0, 0, []⟩, ⟨"d", [], 0, 1, []⟩], [], [2, 3], 0⟩) ≠ 5 := by
  constructor
  · rfl
  · decide

/-- C5 (amended): every softmax node is lowered to a six-instruction
decomposition emitted in this order: reduce-max along the softmax axis,
subtract the max from the input, exponentiate, reduce-sum along the axis,
reciprocal of the sum, multiply the exponentiated values by the
reciprocal; the max-subtraction step is never skipped and no other
instructions are emitted for the node. -/
theorem C5_amended (ep : EdgeProgram) (fb : TosaFB) (node : FxNode)
    (inp dimArg : TosaArg) (rest : List TosaArg) (rs : List Nat)
    (hop : node.op = "call_function")
    (htgt : node.target = .aten .softmax)
    (hargs : node.args = inp :: dimArg :: rest)
    (hrs : pySet inp.shape (ratTrunc dimArg.number) 1 = some rs) :
    ∃ fb', processNode ep fb node = .ok fb' ∧
      fb'.instrs = fb.instrs ++
        [⟨.REDUCE_MAX, [inp.name], [genName fb.counter],
           .axisAttr (ratTrunc dimArg.number)⟩,
         ⟨.SUB, [inp.name, genName fb.counter], [genName (fb.counter + 1)],
           .noAttr⟩,
         ⟨.EXP, [genName (fb.counter + 1)], [genName (fb.counter + 2)],
           .noAttr⟩,
         ⟨.REDUCE_SUM, [genName (fb.counter + 2)], [genName (fb.counter + 3)],
           .axisAttr (ratTrunc dimArg.number)⟩,
         ⟨.RECIPROCAL, [genName (fb.counter + 3)], [genName (fb.counter + 4)],
           .noAttr⟩,
         ⟨.MUL, [genName (fb.counter + 2), genName (fb.counter + 4)],
           [node.name], .mulAttr⟩] := by
  obtain ⟨fb', heq, hinstr⟩ :=
    lowerSoftmax_spec (fb.addTensor node.name node.shape node.dtype)
      inp dimArg ⟨node.name, node.shape, node.dtype, 0, []⟩ rest rs hrs
  refine ⟨fb', ?_, ?_⟩
  · rw [processNode, hop, if_pos rfl]
    simp only [processCallFunction, htgt, hargs, tosaMappingOp, nodeArg]
    exact heq
  · simpa [TosaFB.addTensor] using hinstr

/-- C5 (witness): a concrete softmax node along axis 1 of a rank-2 input
lowers to the six-instruction sequence. -/
theorem C5_witness :
    lowOk (processNode ⟨[], [], [], []⟩ TosaFB.empty
      ⟨"call_function", "sm2", .aten .softmax,
       [⟨"y", [4, 5], 0, 0, []⟩, ⟨"d", [], 0, 1, []⟩], [], [4, 5], 0⟩) := by
  obtain ⟨fb', heq, -⟩ :=
    C5_amended ⟨[], [], [], []⟩ TosaFB.empty
      ⟨"call_function", "sm2", .aten .softmax,
       [⟨"y", [4, 5], 0, 0, []⟩, ⟨"d", [], 0, 1, []⟩], [], [4, 5], 0⟩
      ⟨"y", [4, 5], 0, 0, []⟩ ⟨"d", [], 0, 1, []⟩ [] [4, 1]
      rfl rfl rfl (by decide)
  exact ⟨fb', heq⟩

/-- On a `call_function` node, `processNode` is the `call_function`
dispatch. -/
theorem callFunction_reduce (ep : EdgeProgram) (fb : TosaFB) (node : FxNode)
    (hop : node.op = "call_function") :
    processNode ep fb node = processCallFunction fb node := by
  rw [processNode, hop, if_pos rfl]

/-- The simple 1:1 path is fatal on any operand/output dtype mismatch. -/
theorem lowerSimple_dtype_fatal (fb : TosaFB) (o : TosaOpc) (attr : TosaAttr)
    (a b outp : TosaArg)
    (h : a.dtype ≠ outp.dtype ∨ b.dtype ≠ outp.dtype) :
    lowerSimple fb o attr [a, b] outp = .error (.assertError "") := by
  simp only [lowerSimple]
  rcases h with h | h
  · rw [if_pos h]
  · by_cases h1 : a.dtype = outp.dtype
    · rw [if_neg (by simpa using h1), if_pos h]
    · rw [if_pos h1]

/-- Exact instruction trace of the division branch. -/
theorem lowerDiv_spec (fb : TosaFB) (a b outp : TosaArg)
    (rest : List TosaArg) :
    ∃ fb', lowerDiv fb (a :: b :: rest) outp = .ok fb' ∧
      fb'.instrs = fb.instrs ++
        [⟨.RECIPROCAL, [b.name], [genName fb.counter], .noAttr⟩,
         ⟨.MUL, [a.name, genName fb.counter], [outp.name], .mulAttr⟩] ∧
      fb'.counter = fb.counter + 1 := by
  simp only [lowerDiv, TosaFB.addIntermediate, TosaFB.addOperator]
  exact ⟨_, rfl, by simp, by simp⟩

/-- C3 (counterexample): a division node whose divisor element type (1)
differs from the declared output element type (0) is lowered without any
failure — a reciprocal and a multiply are emitted — so element-type
agreement is not validated for the decomposed operator families. -/
theorem C3_counterexample :
    processNode ⟨[], [], [], []⟩ TosaFB.empty
      ⟨"call_function", "q", .aten .divTensor,
       [⟨"num", [2], 0, 0, []⟩, ⟨"den", [2], 1, 0, []⟩], [], [2], 0⟩ =
      .ok ⟨[("q", [2], 0), ("layer_0", [2], 1)], [], [], [],
        [⟨.RECIPROCAL, ["den"], ["layer_0"], .noAttr⟩,
         ⟨.MUL, ["num", "layer_0"], ["q"], .mulAttr⟩], 1⟩ := by
  rfl

/-- C3 (amended): only the simple 1:1-mapped operator family validates
element types — there, both operands must match the declared output's
element type before the instruction is emitted and a mismatch is fatal —
while the decomposed families perform no such validation: an
elementwise-division node is lowered successfully regardless of its
operands' element types. -/
theorem C3_amended :
    (∀ (ep : EdgeProgram) (fb : TosaFB) (node : FxNode) (a b : TosaArg)
      (o : TosaOpc),
      node.op = "call_function" →
      tosaMappingOp node.target = some o →
      node.args = [a, b] →
      (a.dtype ≠ node.dtype ∨ b.dtype ≠ node.dtype) →
      processNode ep fb node = .error (.assertError "")) ∧
    (∀ (ep : EdgeProgram) (fb : TosaFB) (node : FxNode) (a b : TosaArg)
      (rest : List TosaArg),
      node.op = "call_function" →
      node.target = .aten .divTensor →
      node.args = (a :: b :: rest) →
      lowOk (processNode ep fb node)) := by
  constructor
  · intro ep fb node a b o hop hmap hargs hmis
    rw [callFunction_reduce ep fb node hop]
    simp only [processCallFunction, hmap, hargs, nodeArg]
    exact lowerSimple_dtype_fatal _ o _ a b _ hmis
  · intro ep fb node a b rest hop htgt hargs
    rw [callFunction_reduce ep fb node hop]
    simp only [processCallFunction, htgt, hargs, tosaMappingOp, nodeArg]
    obtain ⟨fb', heq, -, -⟩ :=
      lowerDiv_spec (fb.addTensor node.name node.shape node.dtype)
        a b ⟨node.name, node.shape, node.dtype, 0, []⟩ rest
    exact ⟨fb', heq⟩

/-- C3 (witness): on a concrete add node with a mismatched first-operand
element type the simple path fails, and a concrete well-typed division
node lowers successfully. -/
theorem C3_witness :
    processNode ⟨[], [], [], []⟩ TosaFB.empty
      ⟨"call_function", "s", .aten .add,
       [⟨"u", [2], 3, 0, []⟩, ⟨"v", [2], 0, 0, []⟩], [], [2], 0⟩ =
      .error (.assertError "") ∧
    lowOk (processNode ⟨[], [], [], []⟩ TosaFB.empty
      ⟨"call_function", "q2", .aten .divTensor,
       [⟨"n2", [2], 0, 0, []⟩, ⟨"d2", [2], 0, 0, []⟩], [], [2], 0⟩) := by
  constructor
  · exact C3_amended.1 ⟨[], [], [], []⟩ TosaFB.empty
      ⟨"call_function", "s", .aten .add,
       [⟨"u", [2], 3, 0, []⟩, ⟨"v", [2], 0, 0, []⟩], [], [2], 0⟩
      ⟨"u", [2], 3, 0, []⟩ ⟨"v", [2], 0, 0, []⟩ .ADD rfl rfl rfl
      (Or.inl (by decide))
  · exact C3_amended.2 ⟨[], [], [], []⟩ TosaFB.empty
      ⟨"call_function", "q2", .aten .divTensor,
       [⟨"n2", [2], 0, 0, []⟩, ⟨"d2", [2], 0, 0, []⟩], [], [2], 0⟩
      ⟨"n2", [2], 0, 0, []⟩ ⟨"d2", [2], 0, 0, []⟩ [] rfl rfl rfl

/-- Appending only non-divide instructions gives `NoNewDiv`. -/
theorem noNewDiv_of_append (L : List Instr) {fb fb' : TosaFB}
    (h : fb'.instrs = fb.instrs ++ L)
    (hL : ∀ i ∈ L, i.opc ≠ TosaOpc.INTDIV) : NoNewDiv fb fb' := by
  intro i hi
  rw [h] at hi
  rcases List.mem_append.1 hi with hmem | hmem
  · exact Or.inl hmem
  · exact Or.inr (hL i hmem)

/-- `promote_shape` appends exactly one `RESHAPE`. -/
theorem promote_shape_instrs {fb : TosaFB} {arg : TosaArg} {p : List Nat}
    {dt : Nat} {res : TosaArg} {fb1 : TosaFB}
    (h : promote_shape fb arg p dt = .ok (res, fb1)) :
    fb1.instrs = fb.instrs ++
      [⟨.RESHAPE, [arg.name], [res.name], .reshapeAttr p⟩] := by
  by_cases hc : arg.shape.prod = p.prod
  · rw [promote_shape, if_pos hc] at h
    cases h
    simp [TosaFB.addIntermediate, TosaFB.addOperator]
  · rw [promote_shape, if_neg hc] at h
    cases h

/-- `transpose_helper` appends exactly one `TRANSPOSE` on success. -/
theorem transpose_helper_instrs {fb : TosaFB} {input : TosaArg}
    {order : List Int} {dt : Nat} {res : TosaArg} {fb1 : TosaFB}
    (h : transpose_helper fb input order dt = .ok (res, fb1)) :
    fb1.instrs = fb.instrs ++
      [⟨.TRANSPOSE, [input.name], [res.name], .transposeAttr order⟩] := by
  rw [transpose_helper] at h
  by_cases h1 : input.shape.length ≠ order.length
  · rw [if_pos h1] at h
    cases h
  · rw [if_neg h1] at h
    by_cases h2 : order.dedup.length ≠ order.length
    · rw [if_pos h2] at h
      cases h
    · rw [if_neg h2] at h
      cases hg : pyGather input.shape order with
      | none =>
        rw [hg] at h
        cases h
      | some shp =>
        rw [hg] at h
        cases h
        simp [TosaFB.addIntermediate, TosaFB.addOperator]

/-- An error outcome that is not `dbg_fail` is branch-sound. -/
theorem branchSound_error {fb : TosaFB} {pe : PyErr}
    (h : ∀ s, pe ≠ PyErr.dbgFail s) : BranchSound fb (.error pe) := by
  refine ⟨fun fb' hh => (by cases hh), fun e hh s => ?_⟩
  cases hh
  exact h s

/-- A success outcome that appends no divide is branch-sound. -/
theorem branchSound_ok {fb R : TosaFB} (h : NoNewDiv fb R) :
    BranchSound fb (.ok R) := by
  refine ⟨fun fb' hh => ?_, fun e hh s => (by cases hh)⟩
  cases hh
  exact h

/-- `promote_shape` never fails through `dbg_fail`. -/
theorem promote_shape_err_notDbg {fb : TosaFB} {arg : TosaArg} {p : List Nat}
    {dt : Nat} {e : PyErr} (h : promote_shape fb arg p dt = .error e) :
    ∀ s, e ≠ PyErr.dbgFail s := by
  by_cases hc : arg.shape.prod = p.prod
  · rw [promote_shape, if_pos hc] at h
    cases h
  · rw [promote_shape, if_neg hc] at h
    cases h
    simp

/-- `transpose_helper` never fails through `dbg_fail`. -/
theorem transpose_helper_err_notDbg {fb : TosaFB} {input : TosaArg}
    {order : List Int} {dt : Nat} {e : PyErr}
    (h : transpose_helper fb input order dt = .error e) :
    ∀ s, e ≠ PyErr.dbgFail s := by
  rw [transpose_helper] at h
  by_cases h1 : input.shape.length ≠ order.length
  · rw [if_pos h1] at h
    cases h
    simp
  · rw [if_neg h1] at h
    by_cases h2 : order.dedup.length ≠ order.length
    · rw [if_pos h2] at h
      cases h
      simp
    · rw [if_neg h2] at h
      cases hg : pyGather input.shape order with
      | none =>
        rw [hg] at h
        cases h
        simp
      | some shp =>
        rw [hg] at h
        cases h

/-- `NoNewDiv` composes. -/
theorem noNewDiv_trans {a b c : TosaFB} (h1 : NoNewDiv a b)
    (h2 : NoNewDiv b c) : NoNewDiv a c := by
  intro i hi
  rcases h2 i hi with hmem | hne
  · exact h1 i hmem
  · exact Or.inr hne

/-- The simple 1:1 path is branch-sound for any non-divide opcode. -/
theorem lowerSimple_sound (fb : TosaFB) (o : TosaOpc) (attr : TosaAttr)
    (inputs : List TosaArg) (outp : TosaArg)
    (ho : o ≠ TosaOpc.INTDIV) :
    BranchSound fb (lowerSimple fb o attr inputs outp) := by
  rcases inputs with _ | ⟨a, _ | ⟨b, _ | ⟨c, rest⟩⟩⟩
  · exact branchSound_error (by simp)
  · exact branchSound_error (by simp)
  · simp only [lowerSimple]
    by_cases h1 : a.dtype ≠ outp.dtype
    · rw [if_pos h1]
      exact branchSound_error (by simp)
    · rw [if_neg h1]
      by_cases h2 : b.dtype ≠ outp.dtype
      · rw [if_pos h2]
        exact branchSound_error (by simp)
      · rw [if_neg h2]
        exact branchSound_ok (noNewDiv_of_append
          [⟨o, [a.name, b.name], [outp.name], attr⟩]
          (by simp [TosaFB.addOperator]) (by simp [ho]))
  · exact branchSound_error (by simp)

/-- The permute branch is branch-sound. -/
theorem lowerPermute_sound (fb : TosaFB) (inputs : List TosaArg)
    (outp : TosaArg) : BranchSound fb (lowerPermute fb inputs outp) := by
  rcases inputs with _ | ⟨a, _ | ⟨b, rest⟩⟩
  · exact branchSound_error (by simp)
  · exact branchSound_error (by simp)
  · exact branchSound_ok (noNewDiv_of_append
      [⟨.TRANSPOSE, [a.name], [outp.name], .transposeAttr b.special⟩]
      (by simp [lowerPermute, TosaFB.addOperator]) (by simp))

/-- The hardtanh branch is branch-sound. -/
theorem lowerHardtanh_sound (fb : TosaFB) (inputs : List TosaArg)
    (outp : TosaArg) : BranchSound fb (lowerHardtanh fb inputs outp) := by
  rcases inputs with _ | ⟨a, _ | ⟨b, _ | ⟨c, rest⟩⟩⟩
  · exact branchSound_error (by simp)
  · exact branchSound_error (by simp)
  · exact branchSound_error (by simp)
  · exact branchSound_ok (noNewDiv_of_append
      [⟨.CLAMP, [a.name], [outp.name],
        .clampAttr (ratTrunc b.number) (ratTrunc c.number) b.number c.number⟩]
      (by simp [lowerHardtanh, TosaFB.addOperator]) (by simp))

/-- The division branch is branch-sound (it emits a reciprocal and a
multiply, never a divide). -/
theorem lowerDiv_sound (fb : TosaFB) (inputs : List TosaArg)
    (outp : TosaArg) : BranchSound fb (lowerDiv fb inputs outp) := by
  rcases inputs with _ | ⟨a, _ | ⟨b, rest⟩⟩
  · exact branchSound_error (by simp)
  · exact branchSound_error (by simp)
  · exact branchSound_ok (noNewDiv_of_append
      [⟨.RECIPROCAL, [b.name], [genName fb.counter], .noAttr⟩,
       ⟨.MUL, [a.name, genName fb.counter], [outp.name], .mulAttr⟩]
      (by simp [lowerDiv, TosaFB.addIntermediate, TosaFB.addOperator])
      (by simp))

/-- The getitem branch is branch-sound. -/
theorem lowerGetitem_sound (fb : TosaFB) (inputs : List TosaArg)
    (outp : TosaArg) : BranchSound fb (lowerGetitem fb inputs outp) := by
  rcases inputs with _ | ⟨item, rest⟩
  · exact branchSound_error (by simp)
  · exact branchSound_ok (noNewDiv_of_append
      [⟨.IDENTITY, [item.name], [outp.name], .noAttr⟩]
      (by simp [lowerGetitem, TosaFB.addOperator]) (by simp))

/-- The addmm branch is branch-sound. -/
theorem lowerAddmm_sound (fb : TosaFB) (inputs : List TosaArg)
    (outp : TosaArg) : BranchSound fb (lowerAddmm fb inputs outp) := by
  rcases inputs with _ | ⟨bias, _ | ⟨input, _ | ⟨weight, _ | ⟨x4, rest⟩⟩⟩⟩
  · exact branchSound_error (by simp)
  · exact branchSound_error (by simp)
  · exact branchSound_error (by simp)
  · cases hm : pyGet input.shape 0 with
    | none =>
      simp only [lowerAddmm, promote_shape, TosaFB.addIntermediate,
        TosaFB.addOperator, List.prod_cons, one_mul, eq_self_iff_true,
        if_true, hm]
      exact branchSound_error (by simp)
    | some m =>
      cases hk : pyGet weight.shape 1 with
      | none =>
        simp only [lowerAddmm, promote_shape, TosaFB.addIntermediate,
          TosaFB.addOperator, List.prod_cons, one_mul, eq_self_iff_true,
          if_true, hm, hk]
        exact branchSound_error (by simp)
      | some k =>
        obtain ⟨fb', heq, hinstr⟩ :=
          lowerAddmm_spec fb bias input weight outp m k hm hk
        rw [heq]
        exact branchSound_ok (noNewDiv_of_append _ hinstr (by simp))
  · exact branchSound_error (by simp)

/-- The softmax branch is branch-sound. -/
theorem lowerSoftmax_sound (fb : TosaFB) (inputs : List TosaArg)
    (outp : TosaArg) : BranchSound fb (lowerSoftmax fb inputs outp) := by
  rcases inputs with _ | ⟨inp, _ | ⟨dimArg, rest⟩⟩
  · exact branchSound_error (by simp)
  · exact branchSound_error (by simp)
  · cases hrs : pySet inp.shape (ratTrunc dimArg.number) 1 with
    | none =>
      simp only [lowerSoftmax, hrs]
      exact branchSound_error (by simp)
    | some rs =>
      obtain ⟨fb', heq, hinstr⟩ :=
        lowerSoftmax_spec fb inp dimArg outp rest rs hrs
      rw [heq]
      exact branchSound_ok (noNewDiv_of_append _ hinstr (by simp))

/-- The batch-norm branch is branch-sound. -/
theorem lowerBatchnorm_sound (fb : TosaFB) (inputs : List TosaArg)
    (outp : TosaArg) : BranchSound fb (lowerBatchnorm fb inputs outp) := by
  rcases inputs with
    _ | ⟨act, _ | ⟨w, _ | ⟨b, _ | ⟨mean, _ | ⟨var, _ | ⟨mom,
      _ | ⟨eps, _ | ⟨x8, rest⟩⟩⟩⟩⟩⟩⟩⟩
  · exact branchSound_error (by simp)
  · exact branchSound_error (by simp)
  · exact branchSound_error (by simp)
  · exact branchSound_error (by simp)
  · exact branchSound_error (by simp)
  · exact branchSound_error (by simp)
  · exact branchSound_error (by simp)
  · by_cases hmom : ratTenth ≠ mom.number
    · simp only [lowerBatchnorm]
      rw [if_pos hmom]
      exact branchSound_error (by simp)
    · have hmom2 : mom.number = ratTenth := by
        by_contra hc
        exact hmom fun hc2 => hc hc2.symm
      obtain ⟨fb', heq, hinstr⟩ :=
        lowerBatchnorm_spec fb act w b mean var mom eps outp hmom2
      rw [heq]
      exact branchSound_ok (noNewDiv_of_append _ hinstr (by simp))
  · exact branchSound_error (by simp)

/-- The convolution branch is branch-sound. -/
theorem lowerConv_sound (fb : TosaFB) (inputs : List TosaArg)
    (outp : TosaArg) : BranchSound fb (lowerConv fb inputs outp) := by
  rcases inputs with
    _ | ⟨input, _ | ⟨weight, _ | ⟨bias, _ | ⟨stride, _ | ⟨pad,
      _ | ⟨dilation, _ | ⟨t7, _ | ⟨t8, _ | ⟨group, _ | ⟨x10, rest⟩⟩⟩⟩⟩⟩⟩⟩⟩⟩
  · exact branchSound_error (by simp)
  · exact branchSound_error (by simp)
  · exact branchSound_error (by simp)
  · exact branchSound_error (by simp)
  · exact branchSound_error (by simp)
  · exact branchSound_error (by simp)
  · exact branchSound_error (by simp)
  · exact branchSound_error (by simp)
  · exact branchSound_error (by simp)
  · simp only [lowerConv]
    cases ht1 : transpose_helper fb input [0, 2, 3, 1] outp.dtype with
    | error e =>
      exact branchSound_error (transpose_helper_err_notDbg ht1)
    | ok p1 =>
      obtain ⟨inT, fb1⟩ := p1
      dsimp only
      by_cases hg : 1 < group.number
      · rw [if_pos hg]
        cases ht2 : transpose_helper fb1 weight [2, 3, 0, 1] outp.dtype with
        | error e =>
          exact branchSound_error (transpose_helper_err_notDbg ht2)
        | ok p2 =>
          obtain ⟨wT, fb2⟩ := p2
          cases hg2 : pyGather outp.shape [0, 2, 3, 1] with
          | none =>
            exact branchSound_error (by simp)
          | some outShape =>
            refine branchSound_ok (noNewDiv_of_append
              [⟨.TRANSPOSE, [input.name], [inT.name], .transposeAttr [0, 2, 3, 1]⟩,
               ⟨.TRANSPOSE, [weight.name], [wT.name], .transposeAttr [2, 3, 0, 1]⟩,
               ⟨.DEPTHWISE_CONV2D, [inT.name, wT.name, bias.name],
                 [genName fb2.counter],
                 .convAttr (pad.special.flatMap (fun v => [v, v]))
                   stride.special dilation.special⟩,
               ⟨.TRANSPOSE, [genName fb2.counter], [outp.name],
                 .transposeAttr [0, 3, 1, 2]⟩] ?_ ?_)
            · simp [TosaFB.addIntermediate, TosaFB.addOperator,
                transpose_helper_instrs ht1, transpose_helper_instrs ht2,
                List.append_assoc]
            · simp
      · rw [if_neg hg]
        cases ht2 : transpose_helper fb1 weight [0, 2, 3, 1] outp.dtype with
        | error e =>
          exact branchSound_error (transpose_helper_err_notDbg ht2)
        | ok p2 =>
          obtain ⟨wT, fb2⟩ := p2
          cases hg2 : pyGather outp.shape [0, 2, 3, 1] with
          | none =>
            exact branchSound_error (by simp)
          | some outShape =>
            refine branchSound_ok (noNewDiv_of_append
              [⟨.TRANSPOSE, [input.name], [inT.name], .transposeAttr [0, 2, 3, 1]⟩,
               ⟨.TRANSPOSE, [weight.name], [wT.name], .transposeAttr [0, 2, 3, 1]⟩,
               ⟨.CONV2D, [inT.name, wT.name, bias.name],
                 [genName fb2.counter],
                 .convAttr (pad.special.flatMap (fun v => [v, v]))
                   stride.special dilation.special⟩,
               ⟨.TRANSPOSE, [genName fb2.counter], [outp.name],
                 .transposeAttr [0, 3, 1, 2]⟩] ?_ ?_)
            · simp [TosaFB.addIntermediate, TosaFB.addOperator,
                transpose_helper_instrs ht1, transpose_helper_instrs ht2,
                List.append_assoc]
            · simp
  · exact branchSound_error (by simp)

/-- The average-pool branch is branch-sound. -/
theorem lowerAvgPool_sound (fb : TosaFB) (inputs : List TosaArg)
    (outp : TosaArg) : BranchSound fb (lowerAvgPool fb inputs outp) := by
  rcases inputs with _ | ⟨it, _ | ⟨ker, _ | ⟨st, rest⟩⟩⟩
  · exact branchSound_error (by simp)
  · exact branchSound_error (by simp)
  · exact branchSound_error (by simp)
  · simp only [lowerAvgPool]
    cases ht1 : transpose_helper fb it [0, 2, 3, 1] outp.dtype with
    | error e =>
      exact branchSound_error (transpose_helper_err_notDbg ht1)
    | ok p1 =>
      obtain ⟨inT, fb1⟩ := p1
      cases hg2 : pyGather outp.shape [0, 2, 3, 1] with
      | none =>
        exact branchSound_error (by simp)
      | some resShape =>
        refine branchSound_ok (noNewDiv_of_append
          [⟨.TRANSPOSE, [it.name], [inT.name], .transposeAttr [0, 2, 3, 1]⟩,
           ⟨.AVG_POOL2D, [inT.name], [genName fb1.counter],
             .poolAttr ker.special st.special
               (match rest with | p :: _ => p.special | [] => [0, 0, 0, 0])⟩,
           ⟨.TRANSPOSE, [genName fb1.counter], [outp.name],
             .transposeAttr [0, 3, 1, 2]⟩] ?_ ?_)
        · simp [TosaFB.addIntermediate, TosaFB.addOperator,
            transpose_helper_instrs ht1, List.append_assoc]
        · simp

/-- The whole `call_function` dispatch is branch-sound. -/
theorem processCallFunction_sound (fb : TosaFB) (node : FxNode) :
    BranchSound fb (processCallFunction fb node) := by
  have haddT : NoNewDiv fb (fb.addTensor node.name node.shape node.dtype) :=
    noNewDiv_of_append [] (by simp [TosaFB.addTensor]) (by simp)
  have hcomp : ∀ r, BranchSound (fb.addTensor node.name node.shape node.dtype) r →
      BranchSound fb r := fun r hr =>
    ⟨fun fb' hok => noNewDiv_trans haddT (hr.1 fb' hok), hr.2⟩
  rcases htgt : node.target with a | s
  case str =>
    rw [processCallFunction, htgt]
    exact hcomp _ (branchSound_error (by simp))
  case aten =>
    rw [processCallFunction, htgt]
    cases a with
    | add => exact hcomp _ (lowerSimple_sound _ .ADD _ node.args _ (by simp))
    | addmm => exact hcomp _ (lowerAddmm_sound _ node.args _)
    | permuteCopy => exact hcomp _ (lowerPermute_sound _ node.args _)
    | hardtanh => exact hcomp _ (lowerHardtanh_sound _ node.args _)
    | convolution => exact hcomp _ (lowerConv_sound _ node.args _)
    | divTensor => exact hcomp _ (lowerDiv_sound _ node.args _)
    | batchNormNoTraining => exact hcomp _ (lowerBatchnorm_sound _ node.args _)
    | avgPool2d => exact hcomp _ (lowerAvgPool_sound _ node.args _)
    | softmax => exact hcomp _ (lowerSoftmax_sound _ node.args _)
    | getitem => exact hcomp _ (lowerGetitem_sound _ node.args _)
    | other s => exact hcomp _ (branchSound_error (by simp))

/-- The placeholder branch is branch-sound. -/
theorem processPlaceholder_sound (ep : EdgeProgram) (fb : TosaFB)
    (node : FxNode) : BranchSound fb (processPlaceholder ep fb node) := by
  simp only [processPlaceholder, nodeArg]
  by_cases h1 : node.target ≠ .str node.name
  · rw [if_pos h1]
    exact branchSound_error (by simp)
  · rw [if_neg h1]
    by_cases h2 : node.args ≠ []
    · rw [if_pos h2]
      exact branchSound_error (by simp)
    · rw [if_neg h2]
      cases hp : alistLookup ep.inputsToParameters node.name with
      | some pn =>
        dsimp only
        cases hv : alistLookup ep.stateDict pn with
        | none =>
          dsimp only
          exact branchSound_error (by simp)
        | some v =>
          cases v with
          | tensor vals =>
            dsimp only
            exact branchSound_ok (noNewDiv_of_append []
              (by simp [TosaFB.addConstNamed]) (by simp))
          | nonTensor =>
            dsimp only
            exact branchSound_error (by simp)
      | none =>
        dsimp only
        cases hb : alistLookup ep.inputsToBuffers node.name with
        | some pn =>
          dsimp only
          cases hv : alistLookup ep.stateDict pn with
          | none =>
            dsimp only
            exact branchSound_error (by simp)
          | some v =>
            cases v with
            | tensor vals =>
              dsimp only
              exact branchSound_ok (noNewDiv_of_append []
                (by simp [TosaFB.addConstNamed]) (by simp))
            | nonTensor =>
              dsimp only
              exact branchSound_error (by simp)
        | none =>
          dsimp only
          exact branchSound_ok (noNewDiv_of_append []
            (by simp [TosaFB.addInputTensor]) (by simp))

/-- The output branch is branch-sound. -/
theorem processOutput_sound (fb : TosaFB) (names : List String) :
    BranchSound fb (processOutput fb names) := by
  induction names generalizing fb with
  | nil => exact branchSound_ok (noNewDiv_of_append [] (by simp) (by simp))
  | cons nm rest ih =>
    simp only [processOutput]
    by_cases hc : (fb.tensors.map (fun t => t.1)).contains nm
    · rw [if_pos hc]
      have hsub := ih (fb.addOutputTensor nm)
      refine ⟨fun fb' hok => ?_, fun e herr s => hsub.2 e herr s⟩
      exact noNewDiv_trans
        (noNewDiv_of_append [] (by simp [TosaFB.addOutputTensor]) (by simp))
        (hsub.1 fb' hok)
    · rw [if_neg hc]
      exact branchSound_error (by simp)

/-- C7: every division node is lowered to exactly two instructions — a
reciprocal of the divisor into a fresh intermediate, then a multiply of
the dividend with it into the output — and no node's successful lowering
ever appends a divide instruction. -/
theorem C7_div :
    (∀ (ep : EdgeProgram) (fb : TosaFB) (node : FxNode) (a b : TosaArg)
      (rest : List TosaArg),
      node.op = "call_function" →
      node.target = .aten .divTensor →
      node.args = a :: b :: rest →
      ∃ fb', processNode ep fb node = .ok fb' ∧
        fb'.instrs = fb.instrs ++
          [⟨.RECIPROCAL, [b.name], [genName fb.counter], .noAttr⟩,
           ⟨.MUL, [a.name, genName fb.counter], [node.name], .mulAttr⟩]) ∧
    (∀ (ep : EdgeProgram) (fb : TosaFB) (node : FxNode) (fb' : TosaFB),
      processNode ep fb node = .ok fb' →
      ∀ i ∈ fb'.instrs, i ∈ fb.instrs ∨ i.opc ≠ TosaOpc.INTDIV) := by
  constructor
  · intro ep fb node a b rest hop htgt hargs
    obtain ⟨fb', heq, hinstr, -⟩ :=
      lowerDiv_spec (fb.addTensor node.name node.shape node.dtype)
        a b ⟨node.name, node.shape, node.dtype, 0, []⟩ rest
    refine ⟨fb', ?_, ?_⟩
    · rw [callFunction_reduce ep fb node hop]
      simp only [processCallFunction, htgt, hargs, tosaMappingOp, nodeArg]
      exact heq
    · simpa [TosaFB.addTensor] using hinstr
  · intro ep fb node fb' h
    rw [processNode] at h
    by_cases h1 : node.op = "call_function"
    · rw [if_pos h1] at h
      exact (processCallFunction_sound fb node).1 fb' h
    · rw [if_neg h1] at h
      by_cases h2 : node.op = "placeholder"
      · rw [if_pos h2] at h
        exact (processPlaceholder_sound ep fb node).1 fb' h
      · rw [if_neg h2] at h
        by_cases h3 : node.op = "output"
        · rw [if_pos h3] at h
          exact (processOutput_sound fb node.outNames).1 fb' h
        · rw [if_neg h3] at h
          cases h

/-- C7 (witness): a concrete division node lowers successfully via the
two-instruction decomposition. -/
theorem C7_witness :
    lowOk (processNode ⟨[], [], [], []⟩ TosaFB.empty
      ⟨"call_function", "q7", .aten .divTensor,
       [⟨"n7", [3], 0, 0, []⟩, ⟨"d7", [3], 0, 0, []⟩], [], [3], 0⟩) := by
  obtain ⟨fb', heq, -⟩ := C7_div.1 ⟨[], [], [], []⟩ TosaFB.empty
    ⟨"call_function", "q7", .aten .divTensor,
     [⟨"n7", [3], 0, 0, []⟩, ⟨"d7", [3], 0, 0, []⟩], [], [3], 0⟩
    ⟨"n7", [3], 0, 0, []⟩ ⟨"d7", [3], 0, 0, []⟩ [] rfl rfl rfl
  exact ⟨fb', heq⟩

/-- C8 (counterexample): a lowering invariant violation — here an
element-type mismatch on an add node — aborts with a bare assertion error
carrying no node identity, target, arguments or metadata, and does not go
through the `dbg_fail` reporting/dump path. -/
theorem C8_counterexample :
    processNode ⟨[], [], [], []⟩ TosaFB.empty
      ⟨"call_function", "s8", .aten .add,
       [⟨"u8", [2], 3, 0, []⟩, ⟨"v8", [2], 0, 0, []⟩], [], [2], 0⟩ =
      .error (.assertError "") ∧
    (PyErr.assertError "" ≠ PyErr.dbgFail "s8") := by
  exact ⟨rfl, by decide⟩

/-- C8 (amended): every lowering invariant violation (element-type
mismatch, element-count mismatch across a reshape, malformed permutation,
unsupported momentum) is fatal, but it is reported only through the failed
assertion's message; the `dbg_fail` diagnostic — the offending node's
identity/target/arguments/metadata plus the best-effort IR dump — is
produced exactly for nodes whose op kind is none of
`call_function`/`placeholder`/`output`. -/
theorem C8_amended :
    (∀ (ep : EdgeProgram) (fb : TosaFB) (node : FxNode),
      (∃ s, processNode ep fb node = .error (.dbgFail s)) ↔
        (node.op ≠ "call_function" ∧ node.op ≠ "placeholder" ∧
         node.op ≠ "output")) ∧
    (∀ (ep : EdgeProgram) (fb : TosaFB) (node : FxNode) (a b : TosaArg)
      (o : TosaOpc),
      node.op = "call_function" → tosaMappingOp node.target = some o →
      node.args = [a, b] → (a.dtype ≠ node.dtype ∨ b.dtype ≠ node.dtype) →
      processNode ep fb node = .error (.assertError "")) ∧
    (∀ (fb2 : TosaFB) (arg : TosaArg) (promoted : List Nat) (dt : Nat)
      (e : PyErr),
      promote_shape fb2 arg promoted dt = .error e →
      e = .assertError "Incompatible promoted shape") ∧
    (∀ (fb2 : TosaFB) (input : TosaArg) (order : List Int) (dt : Nat),
      input.shape.length ≠ order.length →
      transpose_helper fb2 input order dt =
        .error (.assertError "Wrong shape order length")) ∧
    (∀ (fb2 : TosaFB) (act w b mean var mom eps outp : TosaArg),
      mom.number ≠ ratTenth →
      lowerBatchnorm fb2 [act, w, b, mean, var, mom, eps] outp =
        .error (.assertError
          "Expected 0.1 momentum, not currently encoded into TOSA")) := by
  refine ⟨?_, ?_, ?_, ?_, ?_⟩
  · intro ep fb node
    constructor
    · rintro ⟨s, hs⟩
      rw [processNode] at hs
      by_cases h1 : node.op = "call_function"
      · rw [if_pos h1] at hs
        exact absurd rfl ((processCallFunction_sound fb node).2 _ hs s)
      · rw [if_neg h1] at hs
        by_cases h2 : node.op = "placeholder"
        · rw [if_pos h2] at hs
          exact absurd rfl ((processPlaceholder_sound ep fb node).2 _ hs s)
        · rw [if_neg h2] at hs
          by_cases h3 : node.op = "output"
          · rw [if_pos h3] at hs
            exact absurd rfl ((processOutput_sound fb node.outNames).2 _ hs s)
          · exact ⟨h1, h2, h3⟩
    · rintro ⟨h1, h2, h3⟩
      exact ⟨node.name, by rw [processNode, if_neg h1, if_neg h2, if_neg h3]⟩
  · intro ep fb node a b o hop hmap hargs hmis
    rw [callFunction_reduce ep fb node hop]
    simp only [processCallFunction, hmap, hargs, nodeArg]
    exact lowerSimple_dtype_fatal _ o _ a b _ hmis
  · intro fb2 arg promoted dt e h
    by_cases hc : arg.shape.prod = promoted.prod
    · rw [promote_shape, if_pos hc] at h
      cases h
    · rw [promote_shape, if_neg hc] at h
      cases h
      rfl
  · intro fb2 input order dt hlen
    rw [transpose_helper, if_pos hlen]
  · intro fb2 act w b mean var mom eps outp hmom
    simp only [lowerBatchnorm]
    rw [if_pos fun hc => hmom hc.symm]

/-- C8 (witness): concrete invariant violations — a mismatched-dtype add
node and a wrong-length permutation — fail with their bare assertion
errors. -/
theorem C8_witness :
    processNode ⟨[], [], [], []⟩ TosaFB.empty
      ⟨"call_function", "s9", .aten .add,
       [⟨"u9", [2], 5, 0, []⟩, ⟨"v9", [2], 0, 0, []⟩], [], [2], 0⟩ =
      .error (.assertError "") ∧
    transpose_helper TosaFB.empty ⟨"t9", [2, 3], 0, 0, []⟩ [0] 0 =
      .error (.assertError "Wrong shape order length") := by
  constructor
  · exact C8_amended.2.1 ⟨[], [], [], []⟩ TosaFB.empty
      ⟨"call_function", "s9", .aten .add,
       [⟨"u9", [2], 5, 0, []⟩, ⟨"v9", [2], 0, 0, []⟩], [], [2], 0⟩
      ⟨"u9", [2], 5, 0, []⟩ ⟨"v9", [2], 0, 0, []⟩ .ADD rfl rfl rfl
      (Or.inl (by decide))
  · exact C8_amended.2.2.2.1 TosaFB.empty ⟨"t9", [2, 3], 0, 0, []⟩ [0] 0
      (by decide)

/-- C1 (witness): the amended padding law evaluated on a concrete 3-byte
block gives a 16-byte data field. -/
theorem C1_witness :
    (padBlockData [7, 8, 9]).length = ([7, 8, 9].length / 16 + 1) * 16 :=
  (C1_amended [7, 8, 9]).1
